import Mathlib

/-!
Shallow embedding of the pycameresp file-transfer subsystem.

Device side: `modules/lib/shell/shell.py` — the capability handshake
(`check_cam_flasher`), the `upload` / `download` shell commands, and the
`Exporter` class that streams files out to the CamFlasher host tool.

Host side: `tools/camflasher/streamdevice.py` — the `StreamThread`
connection manager: its command handlers and one iteration of its `run`
loop.

The modules `tools/exchange.py`, `tools/filesystem.py` and
`tools/terminal.py` are not part of the provided sources; where the
embedded code calls into them their behaviour is passed in as an
environment parameter (the outcome of each call), and definitions that
stand in for them are marked `Modelled from the spec:`.

Python exceptions are embedded as explicit values: a raised exception
carries a flag telling whether it derives from `Exception` (the class
caught by `except Exception`) or only from `BaseException` (such as
`KeyboardInterrupt`, which such a handler does not catch).
-/

namespace Shell

/-- Python exception value. `isException` is true when the raised object
derives from `Exception` (caught by `except Exception as err`), false for
`BaseException`-only classes such as `KeyboardInterrupt` / `SystemExit`. -/
structure PyExn where
  isException : Bool
  name : String
deriving DecidableEq

/-- Result of one Python call: a returned value or a raised exception. -/
inductive PyResult (α : Type) where
  | ok : α → PyResult α
  | exn : PyExn → PyResult α
deriving DecidableEq

/-- Observable effects of the device-side transfer commands in shell.py. -/
inductive Ev where
  /-- a line printed through `print_` -/
  | console (s : String)
  /-- the terminal device-attribute query written by `check_cam_flasher` -/
  | query (s : String)
  /-- `exchange.UploadCommand(cwd).write(file, recursive, ...)`: the
  TransferRequest sent to the host -/
  | transferReq (cwd file : String) (recursive : Bool)
  /-- one `exchange.FileReader().read` call returning normally; per the
  spec a `true` result means one file was received and written -/
  | fileRead (ok : Bool)
  /-- a `FileReader().read` call that raised -/
  | fileReadRaise
  /-- the start-of-file sentinel written by `Exporter.send_file` -/
  | marker
  /-- one `exchange.FileWriter().write` call for `path` and its result -/
  | fileWrite (path : String) (ok : Bool)
  /-- `watchdog.WatchDog.feed()` -/
  | feed
  /-- `logger.syslog(err)` entry -/
  | syslog (name : String)
deriving DecidableEq

/-- Escape sequence the CamFlasher host answers with (shell.py:644). -/
def camFlasherResponse : String := "\x1B[?3;2c"

/-- Terminal device-attribute query written by the device (shell.py:638). -/
def deviceAttributeQuery : String := "\x1B[0c"

/-- Refusal message printed when the peer is not CamFlasher. -/
def refusalMsg : String := "CamFlasher application required for this command"

/-- Capability handshake `check_cam_flasher` (shell.py:633-646).
`stdout_redirected` is true when shell output is redirected to a file;
`response` is what `terminal.getch(duration=1000)` returned (when the peer
sends nothing within the one-second timeout this is not the capability
response). Returns the emitted events and the boolean result. -/
def check_cam_flasher (stdout_redirected : Bool) (response : String) :
    List Ev × Bool :=
  if stdout_redirected then ([], false)
  else ([Ev.query deviceAttributeQuery], response == camFlasherResponse)

/-- Outcome of a device shell command: returned normally, or let an
exception escape to the caller. -/
inductive Outcome where
  | returned
  | raised (e : PyExn)
deriving DecidableEq

/-- Environment of one run of the device `upload` command: the state and
peer behaviour it encounters. `cmdWrite` is the outcome of
`UploadCommand.write`; `reads` are the outcomes of the successive
`FileReader().read` calls the loop would observe. -/
structure UploadEnv where
  stdout_redirected : Bool
  response : String
  cwd : String
  cmdWrite : PyResult Unit
  reads : List (PyResult Bool)

/-- Receive loop of `upload` (shell.py:655-659):
`result = True; while result: result = FileReader().read(...); feed()`.
Consumes one outcome per iteration; returns `none` when the supplied
outcome trace ends before the loop does, otherwise the events and the
exception (if one was raised out of `read`). -/
def upload_loop : List (PyResult Bool) → Option (List Ev × Option PyExn)
  | [] => none
  | PyResult.exn e :: _ => some ([Ev.fileReadRaise], some e)
  | PyResult.ok b :: rs =>
    if b then
      match upload_loop rs with
      | none => none
      | some (evs, r) => some (Ev.fileRead true :: Ev.feed :: evs, r)
    else some ([Ev.fileRead false, Ev.feed], none)

/-- Device `upload` shell command (shell.py:648-665). Modelled from the
spec: `exchange.UploadCommand.write` transmits the TransferRequest (current
directory, pattern, recursive flag) and `exchange.FileReader.read` receives
one file (returning true) or sees the session-termination command
(returning false); exchange.py itself is absent from the sources. -/
def upload (env : UploadEnv) (file : String) (recursive : Bool) :
    Option (List Ev × Outcome) :=
  let h := check_cam_flasher env.stdout_redirected env.response
  if h.2 then
    match env.cmdWrite with
    | PyResult.exn e =>
      if e.isException then
        some (h.1 ++ [Ev.console "Upload to device start",
              Ev.transferReq env.cwd file recursive,
              Ev.syslog e.name, Ev.console "Upload failed"], Outcome.returned)
      else
        some (h.1 ++ [Ev.console "Upload to device start",
              Ev.transferReq env.cwd file recursive], Outcome.raised e)
    | PyResult.ok _ =>
      match upload_loop env.reads with
      | none => none
      | some (levs, none) =>
        some (h.1 ++ Ev.console "Upload to device start" ::
              Ev.transferReq env.cwd file recursive :: levs
              ++ [Ev.console "Upload end"], Outcome.returned)
      | some (levs, some e) =>
        if e.isException then
          some (h.1 ++ Ev.console "Upload to device start" ::
                Ev.transferReq env.cwd file recursive :: levs
                ++ [Ev.syslog e.name, Ev.console "Upload failed"],
                Outcome.returned)
        else
          some (h.1 ++ Ev.console "Upload to device start" ::
                Ev.transferReq env.cwd file recursive :: levs,
                Outcome.raised e)
  else
    some (h.1 ++ [Ev.console refusalMsg], Outcome.returned)

/-- Device-side filesystem oracle: `filesystem.fileinfo(path)[0]` mode
bits and `filesystem.exists(path)` (filesystem.py is absent from src). -/
structure DevFS where
  mode : String → Nat
  exists' : String → Bool

namespace Exporter

/-- `Exporter.send_file` (shell.py:672-684). `fwResult` is what
`exchange.FileWriter().write(path, ...)` would return for this attempt
(true on success, false on a write/ack failure). Directories are skipped;
a path that no longer exists is skipped with `result` still true. -/
def send_file (fs : DevFS) (fwResult : Bool) (path : String) :
    List Ev × Bool :=
  if fs.mode path &&& 0x4000 ≠ 0x4000 then
    if fs.exists' path then
      ([Ev.marker, Ev.fileWrite path fwResult, Ev.feed], fwResult)
    else ([], true)
  else ([], true)

/-- Retry loop of `Exporter.show` (shell.py:686-691, the source method is
named `show`): call `send_file` until it returns true, at most `fuel`
times. `fw k` is the `FileWriter.write` outcome of the k-th attempt.
Returns the emitted events and the number of `send_file` calls made. -/
def show_go (fs : DevFS) (fw : Nat → Bool) (path : String) :
    Nat → Nat → List Ev × Nat
  | 0, _ => ([], 0)
  | fuel+1, k =>
    match send_file fs (fw k) path with
    | (evs, true) => (evs, 1)
    | (evs, false) =>
      let r := show_go fs fw path fuel (k+1)
      (evs ++ r.1, r.2 + 1)

/-- `Exporter.show` (shell.py:686-691): `for _ in range(3): if
send_file(path) is True: break`. -/
def show_file (fs : DevFS) (fw : Nat → Bool) (path : String) :
    List Ev × Nat :=
  show_go fs fw path 3 0

end Exporter

/-- Modelled from the spec: `filesystem.scandir` (absent from src) invokes
`obj.show` on every matching file in enumeration order; a download session
is the `Exporter` shown each enumerated path in turn. `fw p k` is the
outcome of the k-th send attempt for file `p`. -/
def export_session (fs : DevFS) (fw : String → Nat → Bool)
    (files : List String) : List Ev :=
  files.flatMap (fun p => (Exporter.show_file fs (fw p) p).1)

/-- Device `download` shell command (shell.py:696-707). The try-block body
(`searchfile(file, recursive, Exporter())`) is abstracted as the events it
emits plus the exception it raises, if any. -/
def download (stdout_redirected : Bool) (response : String)
    (body : List Ev × Option PyExn) : List Ev × Outcome :=
  let h := check_cam_flasher stdout_redirected response
  if h.2 then
    match body.2 with
    | none =>
      (h.1 ++ Ev.console "Download from device start" :: body.1
       ++ [Ev.console "Download end"], Outcome.returned)
    | some e =>
      if e.isException then
        (h.1 ++ Ev.console "Download from device start" :: body.1
         ++ [Ev.syslog e.name, Ev.console "Download failed"],
         Outcome.returned)
      else
        (h.1 ++ Ev.console "Download from device start" :: body.1,
         Outcome.raised e)
  else (h.1 ++ [Ev.console refusalMsg], Outcome.returned)

end Shell

namespace StreamDevice

open Shell (PyExn PyResult)

/-- Observable effects of the host `StreamThread` (streamdevice.py). -/
inductive HEv where
  /-- a message passed to `self.print` (the `receive_callback`) -/
  | printed (s : String)
  /-- raw bytes read in `receive` and forwarded to the callback -/
  | received (s : String)
  /-- one `FileWriter().write` call streaming local file `name` out -/
  | sentFile (name : String)
  /-- `self.stream.write(b"exit\r\n")`: the out-of-band termination
  command releasing the device from its receive loop -/
  | wroteExit
  /-- raw data written to the stream by `on_write` -/
  | wroteData (s : String)
  /-- one host-side `FileReader().read` call in `on_download_file` -/
  | hostFileRead
  /-- the progress indicator printed while connecting (the rotating
  `|*-----|` text; the cursor position in it is elided) -/
  | progress
  /-- `fileuploader.PythonUploader.upload_prompt` invocation -/
  | promptUpload (filename : String)
deriving DecidableEq

/-- Kind of open stream held by the thread. -/
inductive Kind where
  | serial
  | telnet
deriving DecidableEq

/-- StreamThread.DISCONNECTED -/
def DISCONNECTED : Nat := 0
/-- StreamThread.CONNECTING_TELNET -/
def CONNECTING_TELNET : Nat := 1
/-- StreamThread.TELNET_CONNECTED -/
def TELNET_CONNECTED : Nat := 2
/-- StreamThread.SERIAL_CONNECTED -/
def SERIAL_CONNECTED : Nat := 3

/-- Mutable state of the `StreamThread` relevant to the claims:
`self.stream` (none when closed), `self.state`, `self.loop`. -/
structure TState where
  stream : Option Kind
  state : Nat
  loop : Bool
deriving DecidableEq

/-- Commands read from the thread's queue (`CMD_*`, with their data). -/
inductive Cmd where
  | connectSerial (port : String) (rtsDtr : Bool)
  | connectTelnet (host : String) (port : Nat)
  | disconnect
  | writeData (data : String)
  | uploadFile (dir : String)
  | downloadFile (dir : String)
  | uploadPrompt (filename : String)
  | quit
deriving DecidableEq

/-- Host-side filesystem and path oracle (`os.path` and the repository's
filesystem.py, the latter absent from src): `normpath`, `isdir`,
`os.path.exists`, `os.path.split`, and `scandir`'s file list. -/
structure HostFS where
  normpath : String → String
  isdir : String → Bool
  exists' : String → Bool
  split : String → String × String
  scandir : String → String → Bool → List String

/-- Environment of one `run` iteration: outcomes of the calls into the
transport, the filesystem and the exchange module. -/
structure RunEnv where
  /-- outcome of opening `StreamSerial(...)` (and the subsequent RTS/DTR
  and `reset_input_buffer` calls) in `on_connect_serial` -/
  serialOpen : Option PyExn
  /-- outcome of constructing `StreamTelnet(...)` in `on_connect_telnet` -/
  telnetOpen : Option PyExn
  /-- result of `StreamTelnet.is_opened` (its `telnet.open` attempt) -/
  telnetIsOpened : Bool
  /-- outcome of `self.stream.read(...)` in `receive` -/
  readData : PyResult String
  /-- outcome of the write sequence in `on_write` (the 8-byte chunk
  pacing and echo draining are pure timing and are elided) -/
  writeOutcome : Option PyExn
  hfs : HostFS
  /-- outcome of `UploadCommand(directory).read(...)`: the device's
  TransferRequest `(path, pattern, recursive)` or a raised exception -/
  uploadReq : PyResult (String × String × Bool)
  /-- outcome of `FileWriter().write` per local file (none = success) -/
  fwWrite : String → Option PyExn
  /-- outcome of `FileReader().read` in `on_download_file` -/
  hostRead : Option PyExn

/-- `StreamThread.close` (streamdevice.py:212-217): only when a stream is
open does it reset the state to `DISCONNECTED` and drop the stream. -/
def close (t : TState) : TState :=
  if t.stream.isSome then
    { t with stream := none, state := DISCONNECTED }
  else t

/-- Message printed on successful serial connection. -/
def connectSerialMsg (port : String) : String :=
  "\n\x1B[42;93mConnect serial link " ++ port ++ "\x1B[m"

/-- Message printed on successful telnet stream creation. -/
def connectTelnetMsg (host : String) (port : Nat) : String :=
  "\n\x1B[42;93mConnect telnet on " ++ host ++ ":" ++ toString port ++ "\x1B[m"

/-- Message printed when a read fails in `receive`. -/
def connectionLostMsg : String := "\n\x1B[93;101mConnection lost\x1B[m"

/-- Message printed by `on_disconnect` for telnet states. -/
def disconnectedMsg : String := "\n\x1B[42;93mDisconnected\x1B[m"

/-- `StreamThread.on_connect_serial` (streamdevice.py:219-243). On any
exception while opening, the handler only calls `close()`; nothing is
reported upstream. -/
def on_connect_serial (env : RunEnv) (t : TState) (c : Cmd) :
    TState × List HEv :=
  match c with
  | Cmd.connectSerial port _ =>
    let t1 := close t
    if port == "" then (t1, [])
    else
      match env.serialOpen with
      | none => ({ t1 with stream := some Kind.serial },
                 [HEv.printed (connectSerialMsg port)])
      | some _ => (close t1, [])
  | _ => (t, [])

/-- `StreamThread.on_connect_telnet` (streamdevice.py:245-259). -/
def on_connect_telnet (env : RunEnv) (t : TState) (c : Cmd) :
    TState × List HEv :=
  match c with
  | Cmd.connectTelnet host port =>
    let t1 := close t
    if host == "" then (t1, [])
    else
      match env.telnetOpen with
      | none => ({ t1 with stream := some Kind.telnet },
                 [HEv.printed (connectTelnetMsg host port)])
      | some _ => (close t1, [])
  | _ => (t, [])

/-- `StreamThread.on_connect` (streamdevice.py:261-264). -/
def on_connect (env : RunEnv) (t : TState) (c : Cmd) : TState × List HEv :=
  let r1 := on_connect_serial env t c
  let r2 := on_connect_telnet env r1.1 c
  (r2.1, r1.2 ++ r2.2)

/-- `StreamThread.on_quit` (streamdevice.py:270-274). -/
def on_quit (t : TState) (c : Cmd) : TState :=
  match c with
  | Cmd.quit => close { t with loop := false }
  | _ => t

/-- `StreamThread.on_disconnect` (streamdevice.py:276-281). -/
def on_disconnect (t : TState) (c : Cmd) : TState × List HEv :=
  match c with
  | Cmd.disconnect =>
    if t.state == TELNET_CONNECTED || t.state == CONNECTING_TELNET then
      (close t, [HEv.printed disconnectedMsg])
    else (close t, [])
  | _ => (t, [])

/-- Path resolution of `on_upload_file` (streamdevice.py:289-292):
`target_dir = normpath(directory + "/" + path + "/" + pattern)`, a
directory target gets `/*` appended, then `os.path.split`. -/
def resolve_target (fs : HostFS) (directory path pattern : String) :
    String × String :=
  let t0 := fs.normpath (directory ++ "/" ++ path ++ "/" ++ pattern)
  let t := if fs.isdir t0 then t0 ++ "/*" else t0
  fs.split t

/-- Guard of `on_upload_file` (streamdevice.py:295):
`directory_.find(os.path.normpath(directory)) == 0 and
os.path.exists(directory_)` — the split-off directory must start with the
normalized working directory and exist. -/
def target_allowed (fs : HostFS) (directory path pattern : String) : Bool :=
  let dp := resolve_target fs directory path pattern
  (fs.normpath directory).data.isPrefixOf dp.1.data && fs.exists' dp.1

/-- The "not found" message of `on_upload_file` (streamdevice.py:303). -/
def notFoundMsg (fs : HostFS) (path pattern : String) : String :=
  "'" ++ fs.normpath (path ++ "/" ++ pattern) ++ "' not found"

/-- Send loop of `on_upload_file` (streamdevice.py:298-301): one
`FileWriter().write` per enumerated file (backslashes replaced first); a
raised exception escapes to the handler's `except`. Returns the events
and whether the loop finished without raising. -/
def sendFiles (fwWrite : String → Option PyExn) :
    List String → List HEv × Bool
  | [] => ([], true)
  | f :: rest =>
    let name := f.replace "\\" "/"
    match fwWrite name with
    | none =>
      let r := sendFiles fwWrite rest
      (HEv.sentFile name :: r.1, r.2)
    | some _ => ([HEv.sentFile name], false)

/-- `StreamThread.on_upload_file` body (streamdevice.py:283-307), given
that the command matched `CMD_UPLOAD_FILE`. Any exception inside the try
block yields the single "Upload error" message; otherwise the exit
command is written after the file loop or the "not found" report. -/
def on_upload_file (fs : HostFS) (directory : String)
    (req : PyResult (String × String × Bool))
    (fwWrite : String → Option PyExn) : List HEv :=
  match req with
  | PyResult.exn _ => [HEv.printed "Upload error"]
  | PyResult.ok (path, pattern, recursive) =>
    let dp := resolve_target fs directory path pattern
    if target_allowed fs directory path pattern then
      let r := sendFiles fwWrite (fs.scandir dp.1 dp.2 recursive)
      if r.2 then r.1 ++ [HEv.wroteExit]
      else r.1 ++ [HEv.printed "Upload error"]
    else
      [HEv.printed (notFoundMsg fs path pattern), HEv.wroteExit]

/-- `StreamThread.on_download_file` body (streamdevice.py:309-316), given
that the command matched `CMD_DONWLOAD_FILE`. -/
def on_download_file (hostRead : Option PyExn) : List HEv :=
  match hostRead with
  | none => [HEv.hostFileRead]
  | some _ => [HEv.hostFileRead, HEv.printed "Download error"]

/-- `StreamThread.on_write` (streamdevice.py:324-349): writes the data
(chunked for long payloads, elided here as pure pacing); on any exception
it only calls `close()` — no message is reported upstream. -/
def on_write (env : RunEnv) (t : TState) (c : Cmd) : TState × List HEv :=
  match c with
  | Cmd.writeData d =>
    if t.stream.isSome then
      match env.writeOutcome with
      | none => (t, [HEv.wroteData d])
      | some _ => (close t, [])
    else (t, [])
  | _ => (t, [])

/-- `StreamThread.receive` (streamdevice.py:351-359): reads available
bytes and forwards them to the callback; on exception prints the
connection-lost message and closes. -/
def receive (env : RunEnv) (t : TState) : TState × List HEv :=
  if t.stream.isSome then
    match env.readData with
    | PyResult.ok d => (t, [HEv.received d])
    | PyResult.exn _ => (close t, [HEv.printed connectionLostMsg])
  else (t, [])

/-- `StreamTelnet.is_opened` / `StreamSerial.is_opened`: serial always
reports open; telnet attempts `telnet.open(host, port, timeout=1)`. -/
def is_opened (env : RunEnv) : Kind → Bool
  | Kind.serial => true
  | Kind.telnet => env.telnetIsOpened

/-- Command dispatch of the connected states (streamdevice.py:394-403):
`on_write`, `on_upload_file`, `on_download_file`, `on_connect`,
`on_upload_prompt`, `on_disconnect`, `on_quit` in that order. -/
def dispatch_connected (env : RunEnv) (t : TState) (c : Cmd) :
    TState × List HEv :=
  let r1 := on_write env t c
  let e2 :=
    match c with
    | Cmd.uploadFile dir => on_upload_file env.hfs dir env.uploadReq env.fwWrite
    | _ => []
  let e3 :=
    match c with
    | Cmd.downloadFile _ => on_download_file env.hostRead
    | _ => []
  let r4 := on_connect env r1.1 c
  let e5 :=
    match c with
    | Cmd.uploadPrompt f => [HEv.promptUpload f]
    | _ => []
  let r6 := on_disconnect r4.1 c
  let t7 := on_quit r6.1 c
  (t7, r1.2 ++ e2 ++ e3 ++ r4.2 ++ e5 ++ r6.2)

/-- One iteration of `StreamThread.run` (streamdevice.py:361-404).
`queued` is the command available on the queue this iteration (`none`
when the queue is empty; in the `DISCONNECTED` state `command.get()`
blocks, so an empty queue completes no iteration). -/
def run_step (env : RunEnv) (t : TState) (queued : Option Cmd) :
    TState × List HEv :=
  if t.state == DISCONNECTED then
    match queued with
    | none => (t, [])
    | some c =>
      let r := on_connect env t c
      let t2 := on_quit r.1 c
      ({ t2 with state := CONNECTING_TELNET }, r.2)
  else if t.state == CONNECTING_TELNET then
    let r1 :=
      match queued with
      | none => (t, ([] : List HEv))
      | some c =>
        let ra := on_connect env t c
        let rb := on_disconnect ra.1 c
        (on_quit rb.1 c, ra.2 ++ rb.2)
    match r1.1.stream with
    | some k =>
      if is_opened env k then
        match k with
        | Kind.telnet =>
          ({ r1.1 with state := TELNET_CONNECTED },
           r1.2 ++ [HEv.printed "\x1B[42;93mConnected waiting for answer\x1B[m"])
        | Kind.serial => ({ r1.1 with state := SERIAL_CONNECTED }, r1.2)
      else (r1.1, r1.2 ++ [HEv.progress])
    | none => ({ r1.1 with state := DISCONNECTED }, r1.2)
  else if t.state == TELNET_CONNECTED || t.state == SERIAL_CONNECTED then
    let r1 :=
      match queued with
      | none => (t, ([] : List HEv))
      | some c => dispatch_connected env t c
    let r2 := receive env r1.1
    (r2.1, r1.2 ++ r2.2)
  else (t, [])

end StreamDevice

open Shell StreamDevice

/-- Helper: the upload receive loop on a trace of `k` successful file
receptions followed by the termination signal. -/
theorem upload_loop_replicate (k : Nat) :
    Shell.upload_loop
        (List.replicate k (PyResult.ok true) ++ [PyResult.ok false]) =
      some ((List.replicate k [Ev.fileRead true, Ev.feed]).flatten ++
            [Ev.fileRead false, Ev.feed], none) := by
  induction k with
  | zero => simp [Shell.upload_loop]
  | succ n ih => simp [List.replicate_succ, Shell.upload_loop, ih]

/-- Helper: with every write failing, the retry loop uses all its fuel. -/
theorem show_go_all_fail (fs : DevFS) (fw : Nat → Bool) (p : String)
    (hm : fs.mode p &&& 0x4000 ≠ 0x4000) (he : fs.exists' p = true)
    (hf : ∀ k, fw k = false) (fuel k : Nat) :
    (Exporter.show_go fs fw p fuel k).2 = fuel := by
  induction fuel generalizing k with
  | zero => simp [Exporter.show_go]
  | succ n ih =>
    simp only [Exporter.show_go, Exporter.send_file, if_pos hm, if_pos he, hf]
    simpa using ih (k+1)

/-- Helper: the retry loop never makes more calls than its fuel allows. -/
theorem show_go_le (fs : DevFS) (fw : Nat → Bool) (p : String)
    (fuel k : Nat) : (Exporter.show_go fs fw p fuel k).2 ≤ fuel := by
  induction fuel generalizing k with
  | zero => simp [Exporter.show_go]
  | succ n ih =>
    unfold Exporter.show_go
    rcases hsf : Exporter.send_file fs (fw k) p with ⟨evs, b⟩
    cases b
    · simpa using Nat.succ_le_succ (ih (k+1))
    · simp

/-- C1: a device-side capability handshake whose peer never sends the
capability-response escape sequence within the timeout returns false, and
with such a peer both `upload` and `download` start no transfer session
(no TransferRequest, no file reads, no markers — only the query and the
refusal line) and print the user-visible refusal message. -/
theorem C1_handshake_refusal (sr : Bool) (response cwd file : String)
    (recursive : Bool) (cw : PyResult Unit) (reads : List (PyResult Bool))
    (body : List Ev × Option PyExn)
    (h : response ≠ Shell.camFlasherResponse) :
    (Shell.check_cam_flasher sr response).2 = false ∧
    Shell.upload ⟨sr, response, cwd, cw, reads⟩ file recursive =
      some ((Shell.check_cam_flasher sr response).1 ++
            [Ev.console Shell.refusalMsg], Outcome.returned) ∧
    Shell.download sr response body =
      ((Shell.check_cam_flasher sr response).1 ++
       [Ev.console Shell.refusalMsg], Outcome.returned) := by
  refine ⟨?_, ?_, ?_⟩ <;>
    cases sr <;>
      simp [Shell.check_cam_flasher, Shell.upload, Shell.download, h]

/-- Witness for C1 at a concrete silent peer. -/
theorem C1_witness :
    (Shell.check_cam_flasher false "").2 = false ∧
    Shell.upload ⟨false, "", "/", PyResult.ok (), []⟩ "f" false =
      some ([Ev.query Shell.deviceAttributeQuery,
             Ev.console Shell.refusalMsg], Outcome.returned) ∧
    Shell.download false "" ([], none) =
      ([Ev.query Shell.deviceAttributeQuery,
        Ev.console Shell.refusalMsg], Outcome.returned) := by
  have h := C1_handshake_refusal false "" "/" "f" false (PyResult.ok ()) []
    ([], none) (by decide)
  simpa [Shell.check_cam_flasher] using h

/-- C2: a file whose every send attempt fails is retried exactly 3 times
(and, in general, never more than 3 times), and the session still
processes every preceding and subsequent file of the enumeration exactly
as it would have — a single file's failure does not abort the session. -/
theorem C2_retry_and_continue (fs : DevFS) (fw : String → Nat → Bool)
    (p : String) (l₁ l₂ : List String)
    (hm : fs.mode p &&& 0x4000 ≠ 0x4000) (he : fs.exists' p = true)
    (hf : ∀ k, fw p k = false) :
    (Exporter.show_file fs (fw p) p).2 = 3 ∧
    (∀ q g, (Exporter.show_file fs g q).2 ≤ 3) ∧
    Shell.export_session fs fw (l₁ ++ p :: l₂) =
      Shell.export_session fs fw l₁ ++ (Exporter.show_file fs (fw p) p).1 ++
        Shell.export_session fs fw l₂ := by
  refine ⟨show_go_all_fail fs (fw p) p hm he hf 3 0,
          fun q g => show_go_le fs g q 3 0, ?_⟩
  simp [Shell.export_session]

/-- Sample device filesystem: everything exists, nothing is a directory. -/
def devfsAll : DevFS := ⟨fun _ => 0, fun _ => true⟩

/-- Witness for C2 at a concrete always-failing file. -/
theorem C2_witness :
    (Exporter.show_file devfsAll (fun _ => false) "a").2 = 3 ∧
    (Exporter.show_file devfsAll (fun _ => true) "q").2 ≤ 3 ∧
    Shell.export_session devfsAll (fun _ _ => false) ["a", "b"] =
      Shell.export_session devfsAll (fun _ _ => false) [] ++
        (Exporter.show_file devfsAll (fun _ => false) "a").1 ++
        Shell.export_session devfsAll (fun _ _ => false) ["b"] := by
  have h := C2_retry_and_continue devfsAll (fun _ _ => false) "a" [] ["b"]
    (by decide) rfl (fun _ => rfl)
  exact ⟨h.1, h.2.1 "q" (fun _ => true), h.2.2⟩

/-- C3: after a successful capability handshake the device `upload`
command first transmits the TransferRequest (current directory, pattern,
recursive flag), then calls `FileReader().read` once per iteration —
receiving `k` files — until a read returns false, at which point the loop
terminates and the command ends. -/
theorem C3_upload_protocol (cwd file : String) (recursive : Bool)
    (k : Nat) :
    Shell.upload ⟨false, Shell.camFlasherResponse, cwd, PyResult.ok (),
        List.replicate k (PyResult.ok true) ++ [PyResult.ok false]⟩
        file recursive =
      some (Ev.query Shell.deviceAttributeQuery ::
            Ev.console "Upload to device start" ::
            Ev.transferReq cwd file recursive ::
            ((List.replicate k [Ev.fileRead true, Ev.feed]).flatten ++
             [Ev.fileRead false, Ev.feed, Ev.console "Upload end"]),
            Outcome.returned) := by
  simp [Shell.upload, Shell.check_cam_flasher, upload_loop_replicate]

/-- Helper: with every per-file write succeeding, the host send loop
emits one `sentFile` per enumerated file and finishes cleanly. -/
theorem sendFiles_all_ok (fwWrite : String → Option PyExn)
    (h : ∀ f, fwWrite f = none) (l : List String) :
    StreamDevice.sendFiles fwWrite l =
      (l.map (fun f => HEv.sentFile (f.replace "\\" "/")), true) := by
  induction l with
  | nil => simp [StreamDevice.sendFiles]
  | cons a t ih => simp [StreamDevice.sendFiles, h, ih]

/-- Helper: a list of `sentFile` events contains no `wroteExit`. -/
theorem count_exit_map (l : List String) :
    (l.map (fun f => HEv.sentFile (f.replace "\\" "/"))).countP
      (fun ev => ev == HEv.wroteExit) = 0 := by
  induction l with
  | nil => simp
  | cons a t ih => simp [List.countP_cons, ih]

/-- C4: when the host has read the device's TransferRequest and all file
sends succeed (zero or more files), `on_upload_file` writes the explicit
out-of-band termination command as its final action on the link, exactly
once — releasing the device from its receive loop. -/
theorem C4_termination_written (fs : HostFS) (dir path pattern : String)
    (recursive : Bool) (fwWrite : String → Option PyExn)
    (h : ∀ f, fwWrite f = none) :
    (StreamDevice.on_upload_file fs dir
        (PyResult.ok (path, pattern, recursive)) fwWrite).getLast? =
      some HEv.wroteExit ∧
    (StreamDevice.on_upload_file fs dir
        (PyResult.ok (path, pattern, recursive)) fwWrite).countP
      (fun ev => ev == HEv.wroteExit) = 1 := by
  unfold StreamDevice.on_upload_file
  by_cases hg : target_allowed fs dir path pattern
  · simp only [hg, if_pos, sendFiles_all_ok fwWrite h]
    constructor
    · simp
    · simp [List.countP_append, count_exit_map]
  · simp [hg, List.countP_cons]

/-- Sample host filesystem in which every path exists and matches one
file. -/
def hostfsOne : HostFS :=
  ⟨id, fun _ => false, fun _ => true, fun s => (s, "*"), fun _ _ _ => ["a.txt"]⟩

/-- Witness for C4 at a concrete request matching one file. -/
theorem C4_witness :
    (StreamDevice.on_upload_file hostfsOne "w"
        (PyResult.ok ("p", "q", false)) (fun _ => none)).getLast? =
      some HEv.wroteExit ∧
    (StreamDevice.on_upload_file hostfsOne "w"
        (PyResult.ok ("p", "q", false)) (fun _ => none)).countP
      (fun ev => ev == HEv.wroteExit) = 1 :=
  C4_termination_written hostfsOne "w" "p" "q" false (fun _ => none)
    (fun _ => rfl)

/-- Sample host filesystem in which nothing exists. -/
def hostfsNone : HostFS :=
  ⟨id, fun _ => false, fun _ => false, fun s => (s, "*"), fun _ _ _ => []⟩

/-- Environment whose raw write raises a transport error. -/
def writeFailEnv : RunEnv :=
  ⟨none, none, true, PyResult.ok "", some ⟨true, "SerialException"⟩,
   hostfsNone, PyResult.exn ⟨true, "SerialException"⟩, fun _ => none, none⟩

/-- C5 counterexample: a Transport error raised during a raw write in the
serial-connected state transitions the manager to Disconnected but emits
no upstream message at all — link loss is not reported, contradicting the
claim that any read or write error is reported upstream. -/
theorem C5_counterexample :
    StreamDevice.run_step writeFailEnv
        ⟨some Kind.serial, SERIAL_CONNECTED, true⟩
        (some (Cmd.writeData "x")) =
      (⟨none, DISCONNECTED, true⟩, []) := rfl

/-- C5 (amended): a Transport error raised during a read forces the
Disconnected state and is reported upstream as link loss; a Transport
error raised during a raw write forces the Disconnected state silently,
with no upstream report; and a quit command dequeued in any of the four
states terminates the manager's processing loop. -/
theorem C5_link_errors_and_quit (env : RunEnv) (t : TState) (e e' : PyExn)
    (d : String)
    (hconn : t.state = TELNET_CONNECTED ∨ t.state = SERIAL_CONNECTED)
    (hs : t.stream.isSome = true) :
    (env.readData = PyResult.exn e →
      (StreamDevice.run_step env t none).1.state = DISCONNECTED ∧
      (StreamDevice.run_step env t none).2 =
        [HEv.printed StreamDevice.connectionLostMsg]) ∧
    (env.writeOutcome = some e' →
      (StreamDevice.run_step env t (some (Cmd.writeData d))).1.state =
        DISCONNECTED ∧
      (StreamDevice.run_step env t (some (Cmd.writeData d))).2 = []) ∧
    (∀ u : TState, u.state ≤ 3 →
      (StreamDevice.run_step env u (some Cmd.quit)).1.loop = false) := by
  obtain ⟨os, st, lp⟩ := t
  obtain ⟨k, hk⟩ := Option.isSome_iff_exists.mp hs
  simp only at hk
  subst hk
  refine ⟨?_, ?_, ?_⟩
  · intro hr
    rcases hconn with h | h <;> simp only at h <;> subst h <;>
      simp [StreamDevice.run_step, StreamDevice.receive, hr,
        StreamDevice.close, TELNET_CONNECTED, SERIAL_CONNECTED,
        DISCONNECTED, CONNECTING_TELNET]
  · intro hw
    rcases hconn with h | h <;> simp only at h <;> subst h <;>
      simp [StreamDevice.run_step, StreamDevice.dispatch_connected,
        StreamDevice.on_write, StreamDevice.on_connect,
        StreamDevice.on_connect_serial, StreamDevice.on_connect_telnet,
        StreamDevice.on_disconnect, StreamDevice.on_quit,
        StreamDevice.receive, hw, StreamDevice.close,
        TELNET_CONNECTED, SERIAL_CONNECTED, DISCONNECTED, CONNECTING_TELNET]
  · intro u hu
    obtain ⟨uos, ust, ulp⟩ := u
    simp only at hu
    interval_cases ust <;> rcases uos with _ | uk <;>
      simp [StreamDevice.run_step, StreamDevice.dispatch_connected,
        StreamDevice.on_write, StreamDevice.on_connect,
        StreamDevice.on_connect_serial, StreamDevice.on_connect_telnet,
        StreamDevice.on_disconnect, StreamDevice.on_quit,
        StreamDevice.receive, StreamDevice.close, StreamDevice.is_opened,
        TELNET_CONNECTED, SERIAL_CONNECTED, DISCONNECTED,
        CONNECTING_TELNET]

/-- Environment whose read raises a transport error. -/
def readFailEnv : RunEnv :=
  ⟨none, none, true, PyResult.exn ⟨true, "SerialException"⟩,
   some ⟨true, "SerialException"⟩, hostfsNone,
   PyResult.exn ⟨true, "SerialException"⟩, fun _ => none, none⟩

/-- Witness for C5 at concrete failing reads and writes and a quit. -/
theorem C5_witness :
    (StreamDevice.run_step readFailEnv ⟨some Kind.serial, 3, true⟩
        none).1.state = 0 ∧
    (StreamDevice.run_step readFailEnv ⟨some Kind.serial, 3, true⟩
        none).2 = [HEv.printed StreamDevice.connectionLostMsg] ∧
    (StreamDevice.run_step readFailEnv ⟨some Kind.serial, 3, true⟩
        (some (Cmd.writeData "x"))).2 = [] ∧
    (StreamDevice.run_step readFailEnv ⟨none, 0, true⟩
        (some Cmd.quit)).1.loop = false := by
  have h := C5_link_errors_and_quit readFailEnv ⟨some Kind.serial, 3, true⟩
    ⟨true, "SerialException"⟩ ⟨true, "SerialException"⟩ "x"
    (Or.inr rfl) rfl
  exact ⟨(h.1 rfl).1, (h.1 rfl).2, (h.2.1 rfl).2, h.2.2 ⟨none, 0, true⟩
    (by decide)⟩

/-- Environment whose serial and telnet stream constructions raise, and
whose remote telnet endpoint never answers `telnet.open`. -/
def openFailEnv : RunEnv :=
  ⟨some ⟨true, "SerialException"⟩, some ⟨true, "TimeoutError"⟩, false,
   PyResult.ok "", none, hostfsNone,
   PyResult.exn ⟨true, "SerialException"⟩, fun _ => none, none⟩

/-- C6 counterexample: a connect command dequeued in Disconnected whose
Transport open fails leaves the manager in the Connecting state (not
Disconnected) at the end of the iteration, and reports nothing upstream —
contradicting both the stays-Disconnected and the error-reported parts of
the claim. -/
theorem C6_counterexample :
    StreamDevice.run_step openFailEnv ⟨none, DISCONNECTED, true⟩
        (some (Cmd.connectSerial "COM1" false)) =
      (⟨none, CONNECTING_TELNET, true⟩, []) := rfl

/-- C6 (amended): for every connect command (serial or telnet) dequeued
in Disconnected: a serial connect whose Transport open raises reports no
error upstream and still advances the manager to Connecting with no open
stream; the next iteration, finding no stream, returns it to
Disconnected. A successful serial open also advances to Connecting, with
the stream set and the connect message reported. A telnet connect defers
the actual open to the Connecting state's `is_opened` polling:
constructing the stream normally succeeds, so the manager advances to
Connecting with the stream set and the connect message reported even when
the remote endpoint is unreachable — in that case every further iteration
keeps it polling in Connecting (emitting only progress), neither
returning it to Disconnected nor reporting an error; if constructing the
telnet stream itself raises, the failure is silent and the manager passes
through Connecting back to Disconnected as in the serial case. -/
theorem C6_connect_failure (env : RunEnv) (t : TState) (port host : String)
    (tport : Nat) (rts : Bool) (e e' : PyExn) (ht : t.state = DISCONNECTED)
    (hp : port ≠ "") (hh : host ≠ "") :
    (env.serialOpen = some e →
      StreamDevice.run_step env t (some (Cmd.connectSerial port rts)) =
        (⟨none, CONNECTING_TELNET, t.loop⟩, []) ∧
      (StreamDevice.run_step env ⟨none, CONNECTING_TELNET, t.loop⟩
          none).1.state = DISCONNECTED) ∧
    (env.serialOpen = none →
      StreamDevice.run_step env t (some (Cmd.connectSerial port rts)) =
        (⟨some Kind.serial, CONNECTING_TELNET, t.loop⟩,
         [HEv.printed (StreamDevice.connectSerialMsg port)])) ∧
    (env.telnetOpen = none →
      StreamDevice.run_step env t (some (Cmd.connectTelnet host tport)) =
        (⟨some Kind.telnet, CONNECTING_TELNET, t.loop⟩,
         [HEv.printed (StreamDevice.connectTelnetMsg host tport)])) ∧
    (env.telnetOpen = some e' →
      StreamDevice.run_step env t (some (Cmd.connectTelnet host tport)) =
        (⟨none, CONNECTING_TELNET, t.loop⟩, []) ∧
      (StreamDevice.run_step env ⟨none, CONNECTING_TELNET, t.loop⟩
          none).1.state = DISCONNECTED) ∧
    (env.telnetIsOpened = false →
      StreamDevice.run_step env
          ⟨some Kind.telnet, CONNECTING_TELNET, t.loop⟩ none =
        (⟨some Kind.telnet, CONNECTING_TELNET, t.loop⟩,
         [HEv.progress])) := by
  obtain ⟨os, st, lp⟩ := t
  simp only at ht
  subst ht
  refine ⟨?_, ?_, ?_, ?_, ?_⟩
  · intro hf
    constructor
    · rcases os with _ | k <;>
        simp [StreamDevice.run_step, StreamDevice.on_connect,
          StreamDevice.on_connect_serial, StreamDevice.on_connect_telnet,
          StreamDevice.on_quit, StreamDevice.close, hf, hp,
          DISCONNECTED, CONNECTING_TELNET]
    · simp [StreamDevice.run_step, DISCONNECTED, CONNECTING_TELNET]
  · intro hok
    rcases os with _ | k <;>
      simp [StreamDevice.run_step, StreamDevice.on_connect,
        StreamDevice.on_connect_serial, StreamDevice.on_connect_telnet,
        StreamDevice.on_quit, StreamDevice.close, hok, hp,
        DISCONNECTED, CONNECTING_TELNET]
  · intro hok
    rcases os with _ | k <;>
      simp [StreamDevice.run_step, StreamDevice.on_connect,
        StreamDevice.on_connect_serial, StreamDevice.on_connect_telnet,
        StreamDevice.on_quit, StreamDevice.close, hok, hh,
        DISCONNECTED, CONNECTING_TELNET]
  · intro hf
    constructor
    · rcases os with _ | k <;>
        simp [StreamDevice.run_step, StreamDevice.on_connect,
          StreamDevice.on_connect_serial, StreamDevice.on_connect_telnet,
          StreamDevice.on_quit, StreamDevice.close, hf, hh,
          DISCONNECTED, CONNECTING_TELNET]
    · simp [StreamDevice.run_step, DISCONNECTED, CONNECTING_TELNET]
  · intro hclosed
    simp [StreamDevice.run_step, StreamDevice.receive,
      StreamDevice.is_opened, hclosed, DISCONNECTED, CONNECTING_TELNET]

/-- Witness for C6 at concrete failing and succeeding serial and telnet
connects, including an unreachable telnet endpoint left polling. -/
theorem C6_witness :
    StreamDevice.run_step openFailEnv ⟨none, 0, true⟩
        (some (Cmd.connectSerial "COM1" false)) =
      (⟨none, 1, true⟩, []) ∧
    (StreamDevice.run_step openFailEnv ⟨none, 1, true⟩ none).1.state = 0 ∧
    StreamDevice.run_step writeFailEnv ⟨none, 0, true⟩
        (some (Cmd.connectSerial "COM1" false)) =
      (⟨some Kind.serial, 1, true⟩,
       [HEv.printed (StreamDevice.connectSerialMsg "COM1")]) ∧
    StreamDevice.run_step writeFailEnv ⟨none, 0, true⟩
        (some (Cmd.connectTelnet "host" 23)) =
      (⟨some Kind.telnet, 1, true⟩,
       [HEv.printed (StreamDevice.connectTelnetMsg "host" 23)]) ∧
    StreamDevice.run_step openFailEnv ⟨none, 0, true⟩
        (some (Cmd.connectTelnet "host" 23)) =
      (⟨none, 1, true⟩, []) ∧
    StreamDevice.run_step openFailEnv ⟨some Kind.telnet, 1, true⟩ none =
      (⟨some Kind.telnet, 1, true⟩, [HEv.progress]) := by
  have h1 := C6_connect_failure openFailEnv ⟨none, 0, true⟩ "COM1" "host"
    23 false ⟨true, "SerialException"⟩ ⟨true, "TimeoutError"⟩ rfl
    (by decide) (by decide)
  have h2 := C6_connect_failure writeFailEnv ⟨none, 0, true⟩ "COM1" "host"
    23 false ⟨true, "SerialException"⟩ ⟨true, "TimeoutError"⟩ rfl
    (by decide) (by decide)
  exact ⟨(h1.1 rfl).1, (h1.1 rfl).2, h2.2.1 rfl, h2.2.2.1 rfl,
    (h1.2.2.2.1 rfl).1, h1.2.2.2.2 rfl⟩

/-- C7: a zero-match enumeration still completes the session. On the host
upload path, a request resolving inside the working directory but
matching zero files produces no file data and still writes the
termination command; on the device side, a receive trace whose very first
`FileReader().read` returns false (the termination is seen immediately)
ends the loop with zero files received and the command reports normal
completion. -/
theorem C7_zero_files (fs : HostFS) (dir path pattern cwd file : String)
    (recursive rec' : Bool) (fwWrite : String → Option PyExn)
    (hallow : target_allowed fs dir path pattern = true)
    (hzero : fs.scandir (resolve_target fs dir path pattern).1
        (resolve_target fs dir path pattern).2 recursive = []) :
    StreamDevice.on_upload_file fs dir
        (PyResult.ok (path, pattern, recursive)) fwWrite =
      [HEv.wroteExit] ∧
    Shell.upload ⟨false, Shell.camFlasherResponse, cwd, PyResult.ok (),
        [PyResult.ok false]⟩ file rec' =
      some ([Ev.query Shell.deviceAttributeQuery,
             Ev.console "Upload to device start",
             Ev.transferReq cwd file rec',
             Ev.fileRead false, Ev.feed,
             Ev.console "Upload end"], Outcome.returned) := by
  constructor
  · simp [StreamDevice.on_upload_file, hallow, hzero,
      StreamDevice.sendFiles]
  · simp [Shell.upload, Shell.check_cam_flasher, Shell.upload_loop]

/-- Sample host filesystem listing an existing empty directory. -/
def hostfsEmpty : HostFS :=
  ⟨id, fun _ => false, fun _ => true, fun s => (s, "*"), fun _ _ _ => []⟩

/-- Witness for C7 at a concrete empty enumeration. -/
theorem C7_witness :
    StreamDevice.on_upload_file hostfsEmpty "w"
        (PyResult.ok ("p", "q", false)) (fun _ => none) =
      [HEv.wroteExit] ∧
    Shell.upload ⟨false, Shell.camFlasherResponse, "/", PyResult.ok (),
        [PyResult.ok false]⟩ "f" false =
      some ([Ev.query Shell.deviceAttributeQuery,
             Ev.console "Upload to device start",
             Ev.transferReq "/" "f" false,
             Ev.fileRead false, Ev.feed,
             Ev.console "Upload end"], Outcome.returned) := by
  have h := C7_zero_files hostfsEmpty "w" "p" "q" "/" "f" false false
    (fun _ => none) (by decide) rfl
  exact ⟨h.1, h.2⟩

/-- C8 counterexample: an exception not derived from `Exception` (here a
`KeyboardInterrupt`) raised inside the download command body propagates
out of the command instead of being caught — the claim that every
exception is caught fails at this input. -/
theorem C8_counterexample :
    (Shell.download false Shell.camFlasherResponse
        ([], some ⟨false, "KeyboardInterrupt"⟩)).2 =
      Outcome.raised ⟨false, "KeyboardInterrupt"⟩ := rfl

/-- C8 (amended): every `Exception`-derived exception raised inside the
device `upload` or `download` command body (the TransferRequest write,
the receive loop, or the download search) is caught and surfaced as a
syslog entry plus a single-line failure message, and the command returns
normally; exceptions that do not derive from `Exception` (such as
`KeyboardInterrupt`) are outside the handler and propagate to the shell
dispatcher. -/
theorem C8_exception_handling (sr : Bool) (resp cwd file : String)
    (recursive : Bool) (reads : List (PyResult Bool)) (levs : List Ev)
    (bodyEvs : List Ev) (e : PyExn)
    (hcap : (Shell.check_cam_flasher sr resp).2 = true)
    (hl : Shell.upload_loop reads = some (levs, some e))
    (he : e.isException = true) :
    Shell.upload ⟨sr, resp, cwd, PyResult.ok (), reads⟩ file recursive =
      some ((Shell.check_cam_flasher sr resp).1 ++
            Ev.console "Upload to device start" ::
            Ev.transferReq cwd file recursive :: levs ++
            [Ev.syslog e.name, Ev.console "Upload failed"],
            Outcome.returned) ∧
    Shell.upload ⟨sr, resp, cwd, PyResult.exn e, reads⟩ file recursive =
      some ((Shell.check_cam_flasher sr resp).1 ++
            [Ev.console "Upload to device start",
             Ev.transferReq cwd file recursive,
             Ev.syslog e.name, Ev.console "Upload failed"],
            Outcome.returned) ∧
    Shell.download sr resp (bodyEvs, some e) =
      ((Shell.check_cam_flasher sr resp).1 ++
       Ev.console "Download from device start" :: bodyEvs ++
       [Ev.syslog e.name, Ev.console "Download failed"],
       Outcome.returned) := by
  refine ⟨?_, ?_, ?_⟩ <;>
    simp [Shell.upload, Shell.download, hcap, hl, he]

/-- Witness for C8 at a concrete read raising an `OSError`. -/
theorem C8_witness :
    Shell.upload ⟨false, Shell.camFlasherResponse, "/",
        PyResult.ok (), [PyResult.exn ⟨true, "OSError"⟩]⟩ "f" false =
      some ([Ev.query Shell.deviceAttributeQuery,
             Ev.console "Upload to device start",
             Ev.transferReq "/" "f" false, Ev.fileReadRaise,
             Ev.syslog "OSError", Ev.console "Upload failed"],
            Outcome.returned) ∧
    Shell.download false Shell.camFlasherResponse
        ([], some ⟨true, "OSError"⟩) =
      ([Ev.query Shell.deviceAttributeQuery,
        Ev.console "Download from device start",
        Ev.syslog "OSError", Ev.console "Download failed"],
       Outcome.returned) := by
  have h := C8_exception_handling false Shell.camFlasherResponse "/" "f"
    false [PyResult.exn ⟨true, "OSError"⟩] [Ev.fileReadRaise] []
    ⟨true, "OSError"⟩ (by decide) rfl rfl
  refine ⟨?_, ?_⟩
  · simpa [Shell.check_cam_flasher] using h.1
  · simpa [Shell.check_cam_flasher] using h.2.2

/-- C9: on the host upload path a file is ever sent only when the target
directory — obtained by joining the working directory with the
device-requested path and pattern — normalizes to a path starting with
the normalized working directory and existing on disk
(`target_allowed`); otherwise no file data is written, the "not found"
message is reported, and the termination command is still sent. -/
theorem C9_path_guard (fs : HostFS) (dir path pattern : String)
    (recursive : Bool) (fwWrite : String → Option PyExn) :
    (∀ n, HEv.sentFile n ∈
        StreamDevice.on_upload_file fs dir
          (PyResult.ok (path, pattern, recursive)) fwWrite →
      target_allowed fs dir path pattern = true) ∧
    (target_allowed fs dir path pattern = false →
      StreamDevice.on_upload_file fs dir
          (PyResult.ok (path, pattern, recursive)) fwWrite =
        [HEv.printed (StreamDevice.notFoundMsg fs path pattern),
         HEv.wroteExit]) := by
  by_cases hg : target_allowed fs dir path pattern
  · exact ⟨fun _ _ => hg, fun hfalse => absurd hg (by simp [hfalse])⟩
  · refine ⟨fun n hn => ?_, fun _ => by
      simp [StreamDevice.on_upload_file, hg]⟩
    rw [StreamDevice.on_upload_file] at hn
    simp [hg] at hn

/-- Witness for C9 at a concrete non-existing target. -/
theorem C9_witness :
    StreamDevice.on_upload_file hostfsNone "w"
        (PyResult.ok ("p", "q", false)) (fun _ => none) =
      [HEv.printed "'p/q' not found", HEv.wroteExit] := by
  have h := (C9_path_guard hostfsNone "w" "p" "q" false
    (fun _ => none)).2 (by decide)
  simpa [StreamDevice.notFoundMsg, hostfsNone] using h

/-- C10: a path whose mode bits mark it as a directory makes `send_file`
write nothing at all and return true, so the enclosing retry loop stops
after a single call with no events; and the start-of-file marker is ever
emitted only for paths that are not directories (and exist). -/
theorem C10_directories_skipped (fs : DevFS) (fw : Nat → Bool)
    (path : String) (hdir : fs.mode path &&& 0x4000 = 0x4000) :
    Exporter.send_file fs (fw 0) path = ([], true) ∧
    Exporter.show_file fs fw path = ([], 1) ∧
    (∀ r : Bool, ∀ q : String,
      Ev.marker ∈ (Exporter.send_file fs r q).1 →
        fs.mode q &&& 0x4000 ≠ 0x4000 ∧ fs.exists' q = true) := by
  refine ⟨by simp [Exporter.send_file, hdir], ?_, ?_⟩
  · simp [Exporter.show_file, Exporter.show_go, Exporter.send_file, hdir]
  · intro r q hm
    by_cases h1 : fs.mode q &&& 0x4000 ≠ 0x4000
    · by_cases h2 : fs.exists' q
      · exact ⟨h1, h2⟩
      · simp [Exporter.send_file, h1, h2] at hm
    · simp [Exporter.send_file, h1] at hm

/-- Sample device filesystem in which every path is a directory. -/
def devfsDir : DevFS := ⟨fun _ => 0x4000, fun _ => true⟩

/-- Witness for C10 at a concrete directory path. -/
theorem C10_witness :
    Exporter.send_file devfsDir true "d" = ([], true) ∧
    Exporter.show_file devfsDir (fun _ => true) "d" = ([], 1) := by
  have h := C10_directories_skipped devfsDir (fun _ => true) "d" (by decide)
  exact ⟨h.1, h.2.1⟩
